import Mathlib

/-!
# URL shortener (`cmd/shortener/main.go`)

A shallow embedding of the in-memory URL shortener: the identifier generator
(`generateShortID`), the store (`urlStore.add`, `urlStore.get`) and the HTTP
handlers (`webhook`, `handlePOST`, `handleGET`), followed by the properties
proved about them.

Modelling conventions.

* A Go `string` is a sequence of bytes: `GoString = List UInt8`.  `len` is the
  list length and `s[1:]` is `List.drop 1`.
* The global `math/rand` source is a stream of raw draws `Rand = Nat → Nat`;
  `rand.Intn n` consumes the head of the stream and returns it reduced into
  `[0, n)`, so every sequence of outcomes in `[0, n)` is produced by some stream.
* The Go map `map[string]urlPair` is a finite map with unique keys (`AList`).
* The mutex is not modelled: every operation runs as one sequential step.
* `http.ResponseWriter` is a record holding the handler-side header map, the
  committed status and header block, and the body written so far.  Following
  `net/http`, `WriteHeader` commits the status together with a snapshot of the
  header map, and later changes of the header map do not reach the response.
  Content-type sniffing by the transport and logging are not modelled.
-/

namespace Shortener

/-! ## Go strings -/

/-- Byte strings, as Go's `string`. -/
abbrev GoString := List UInt8

/-- The bytes of an ASCII literal of the source text. -/
def str (s : String) : GoString := s.toList.map Char.toUInt8

/-- Go's builtin `len` on strings. -/
def len (s : GoString) : Nat := s.length

/-- Go's `strings.HasPrefix`: `len(s) >= len(p) && s[:len(p)] == p`. -/
def HasPrefix (s p : GoString) : Bool :=
  decide (len s ≥ len p) && decide (s.take (len p) = p)

/-! ## Randomness -/

/-- The state of the global pseudo-random source: the raw draws still to come. -/
abbrev Rand := Nat → Nat

/-- Go's `rand.Intn n` for `0 < n`: a number in `[0, n)`, and the advanced source. -/
def Intn (n : Nat) (h : 0 < n) (g : Rand) : Fin n × Rand :=
  (⟨g 0 % n, Nat.mod_lt _ h⟩, fun i => g (i + 1))

/-! ## Identifier generator -/

/-- The alphabet constant `letterBytes`. -/
def letterBytes : GoString :=
  str "abcdefghijklmnopqrstuvwxyzABCDEFGHIJKLMNOPQRSTUVWXYZ0123456789"

/-- The letter chosen for the raw draw `x`: `letterBytes[x % len(letterBytes)]`. -/
def letterAt (x : Nat) : UInt8 := letterBytes.get ⟨x % len letterBytes, Nat.mod_lt _ (by decide)⟩

/-- The loop `for i := range b { b[i] = letterBytes[rand.Intn(len(letterBytes))] }`,
with `k` iterations left and `i` the current index. -/
def generateShortID_loop : Nat → Nat → GoString → Rand → GoString × Rand
  | 0, _, b, g => (b, g)
  | k + 1, i, b, g =>
    let d := Intn (len letterBytes) (by decide) g
    generateShortID_loop k (i + 1) (b.set i (letterBytes.get d.1)) d.2

/-- The function `generateShortID(length)`: `b := make([]byte, length)`, the fill
loop, `string(b)`.  The length is a natural number (`make` rejects a negative one). -/
def generateShortID (length : Nat) (g : Rand) : GoString × Rand :=
  generateShortID_loop length 0 (List.replicate length 0) g

/-! ## The store -/

/-- The struct `urlPair`. -/
structure urlPair where
  Original : GoString
  Short : GoString
deriving DecidableEq

/-- The struct `urlStore`: the map `urls` (the mutex is not modelled). -/
structure urlStore where
  urls : AList (fun _ : GoString => urlPair)
deriving DecidableEq

/-- The constructor `newURLStore`: an empty map. -/
def newURLStore : urlStore := ⟨∅⟩

/-- A Go `error` value; `none` stands for `nil`. -/
abbrev GoError := Option GoString

/-- What a call of `add` leaves behind: its two return values, the store and the
random source after the call. -/
structure AddResult where
  shortURL : GoString
  err : GoError
  store : urlStore
  rng : Rand

/-- The method `urlStore.add`. -/
def urlStore.add (s : urlStore) (original : GoString) (g : Rand) : AddResult :=
  let gen := generateShortID 8 g
  let short := gen.1
  { shortURL := str "http://localhost:8080/" ++ short
    err := none
    store := ⟨s.urls.insert short { Original := original, Short := short }⟩
    rng := gen.2 }

/-- The method `urlStore.get`: the two return values and the store after the call. -/
def urlStore.get (s : urlStore) (short : GoString) : (GoString × Bool) × urlStore :=
  match s.urls.lookup short with
  | none => (([], false), s)
  | some pair => ((pair.Original, true), s)

/-! ## `net/http` -/

/-- The type `http.Header`: canonical key to list of values. -/
abbrev Header := AList (fun _ : GoString => List GoString)

/-- The token bytes of a header field name (`validHeaderFieldByte`). -/
def validHeaderFieldByte (c : UInt8) : Bool :=
  (97 ≤ c && c ≤ 122) || (65 ≤ c && c ≤ 90) || (48 ≤ c && c ≤ 57) ||
    c ∈ ([33, 35, 36, 37, 38, 39, 42, 43, 45, 46, 94, 95, 96, 124, 126] : List UInt8)

/-- The case-mapping loop of `textproto.CanonicalMIMEHeaderKey`: upper case at the
start and after a hyphen, lower case elsewhere. -/
def canonicalLoop : Bool → GoString → GoString
  | _, [] => []
  | upper, c :: rest =>
    let c1 := if upper && 97 ≤ c && c ≤ 122 then c - 32
      else if !upper && 65 ≤ c && c ≤ 90 then c + 32 else c
    c1 :: canonicalLoop (c1 == 45) rest

/-- Go's `textproto.CanonicalMIMEHeaderKey`: a key that is not made of token bytes
is returned unchanged. -/
def CanonicalMIMEHeaderKey (key : GoString) : GoString :=
  if key.all validHeaderFieldByte then canonicalLoop true key else key

/-- The method `Header.Set`. -/
def Header.Set (h : Header) (key value : GoString) : Header :=
  h.insert (CanonicalMIMEHeaderKey key) [value]

/-- The method `Header.Del`. -/
def Header.Del (h : Header) (key : GoString) : Header :=
  h.erase (CanonicalMIMEHeaderKey key)

/-- The method `Header.Get`: the first value under the key, or the empty string. -/
def Header.Get (h : Header) (key : GoString) : GoString :=
  match h.lookup (CanonicalMIMEHeaderKey key) with
  | some (v :: _) => v
  | _ => []

/-- The state of an `http.ResponseWriter`.  `handlerHeader` is the map returned by
`w.Header()`; `status` and `header` are the status line and header block committed
by the first `WriteHeader`, that is, what the client receives; `body` is the body
written so far. -/
structure ResponseWriter where
  handlerHeader : Header
  wroteHeader : Bool
  status : Nat
  header : Header
  body : GoString
deriving DecidableEq

/-- The writer handed to a handler at the start of a request. -/
def newResponseWriter : ResponseWriter :=
  { handlerHeader := ∅, wroteHeader := false, status := 0, header := ∅, body := [] }

/-- The call `w.Header().Set(key, value)`. -/
def ResponseWriter.HeaderSet (w : ResponseWriter) (key value : GoString) : ResponseWriter :=
  { w with handlerHeader := w.handlerHeader.Set key value }

/-- The call `w.Header().Del(key)`. -/
def ResponseWriter.HeaderDel (w : ResponseWriter) (key : GoString) : ResponseWriter :=
  { w with handlerHeader := w.handlerHeader.Del key }

/-- The call `w.WriteHeader(code)`: the first call commits the status and the
headers set so far; a later call is ignored. -/
def ResponseWriter.WriteHeader (w : ResponseWriter) (code : Nat) : ResponseWriter :=
  if w.wroteHeader then w
  else { w with wroteHeader := true, status := code, header := w.handlerHeader }

/-- The call `w.Write(b)`: commits status 200 if no status was written yet, then
appends to the body. -/
def ResponseWriter.Write (w : ResponseWriter) (b : GoString) : ResponseWriter :=
  let w1 := if w.wroteHeader then w else w.WriteHeader 200
  { w1 with body := w1.body ++ b }

/-- Go's `http.Error`: plain-text headers, the status code, the message and a
newline. -/
def httpError (w : ResponseWriter) (msg : GoString) (code : Nat) : ResponseWriter :=
  let w := w.HeaderDel (str "Content-Length")
  let w := w.HeaderSet (str "Content-Type") (str "text/plain; charset=utf-8")
  let w := w.HeaderSet (str "X-Content-Type-Options") (str "nosniff")
  let w := w.WriteHeader code
  w.Write (msg ++ str "\n")

def MethodGet : GoString := str "GET"
def MethodPost : GoString := str "POST"
def StatusCreated : Nat := 201
def StatusTemporaryRedirect : Nat := 307
def StatusBadRequest : Nat := 400
def StatusMethodNotAllowed : Nat := 405
def StatusInternalServerError : Nat := 500

/-- The parts of `*http.Request` the handlers read: `r.Method`, `r.URL.Path`, and
the outcome of `io.ReadAll(r.Body)` (`none` when the read returns an error). -/
structure Request where
  Method : GoString
  Path : GoString
  Body : Option GoString

/-! ## The handlers -/

/-- The process state the handlers act on: the global `store` and the global
random source. -/
structure Server where
  store : urlStore
  rng : Rand

/-- The handler `handlePOST`. -/
def handlePOST (w : ResponseWriter) (r : Request) (sv : Server) : ResponseWriter × Server :=
  if r.Method ≠ MethodPost ∨ r.Path ≠ str "/" then
    (httpError w (str "Invalid request method or path") StatusBadRequest, sv)
  else
    match r.Body with
    | none => (httpError w (str "Failed to read request body") StatusInternalServerError, sv)
    | some body =>
      let originalURL := body
      if !HasPrefix originalURL (str "http://") && !HasPrefix originalURL (str "https://") then
        (httpError w (str "Invalid URL format") StatusBadRequest, sv)
      else
        let res := sv.store.add body sv.rng
        let sv1 : Server := ⟨res.store, res.rng⟩
        match res.err with
        | some _ =>
          (httpError w (str "Failed to create short URL") StatusInternalServerError, sv1)
        | none =>
          let w := w.WriteHeader StatusCreated
          let w := w.HeaderSet (str "content-type") (str "text/plain")
          let w := w.Write res.shortURL
          (w, sv1)

/-- The handler `handleGET`. -/
def handleGET (w : ResponseWriter) (r : Request) (sv : Server) : ResponseWriter × Server :=
  if r.Method ≠ MethodGet ∨ len r.Path ≤ 1 then
    (httpError w (str "Invalid request method or path") StatusBadRequest, sv)
  else
    let short := r.Path.drop 1
    let res := sv.store.get short
    let sv1 : Server := ⟨res.2, sv.rng⟩
    let original := res.1.1
    let exists_ := res.1.2
    if !exists_ then
      (httpError w (str "Short URL not found") StatusBadRequest, sv1)
    else
      let w := w.HeaderSet (str "Location") original
      let w := w.WriteHeader StatusTemporaryRedirect
      (w, sv1)

/-- The handler `webhook`: dispatch on the request method. -/
def webhook (w : ResponseWriter) (r : Request) (sv : Server) : ResponseWriter × Server :=
  if r.Method = MethodPost then handlePOST w r sv
  else if r.Method = MethodGet then handleGET w r sv
  else (httpError w (str "Method not allowed") StatusMethodNotAllowed, sv)

/-- The server handling one request: `webhook` on a fresh response writer. -/
def serve (sv : Server) (r : Request) : ResponseWriter × Server :=
  webhook newResponseWriter r sv

/-! ## Sequences of `add` calls -/

/-- The identifier that a call of `add` generates when the random source is `g`
(the local variable `short`). -/
def generatedID (g : Rand) : GoString := (generateShortID 8 g).1

/-- Runs `add` on each original in turn; returns the identifiers generated, in
order, with the final store and random source. -/
def addAll : List GoString → urlStore → Rand → List GoString × urlStore × Rand
  | [], s, g => ([], s, g)
  | o :: os, s, g =>
    let res := s.add o g
    let rest := addAll os res.store res.rng
    (generatedID g :: rest.1, rest.2)

/-- The number of entries of the store, Go's `len(s.urls)`. -/
def urlStore.count (s : urlStore) : Nat := s.urls.entries.length

/-- The server handling a finite sequence of requests one after another, each on a
fresh response writer; returns the final state. -/
def run : List Request → Server → Server
  | [], sv => sv
  | r :: rs, sv => run rs (serve sv r).2

/-- Membership in the alphabet `[a-zA-Z0-9]`. -/
def isAlnum (c : UInt8) : Prop :=
  (97 ≤ c ∧ c ≤ 122) ∨ (65 ≤ c ∧ c ≤ 90) ∨ (48 ≤ c ∧ c ≤ 57)

instance (c : UInt8) : Decidable (isAlnum c) := by unfold isAlnum; infer_instance

/-- The data-model invariant of a store: every entry has an accepted original and is
keyed by its own 8-letter identifier. -/
def storeInv (s : urlStore) : Prop :=
  ∀ (k : GoString) (pair : urlPair), s.urls.lookup k = some pair →
    pair.Original ≠ [] ∧
    (HasPrefix pair.Original (str "http://") = true ∨
      HasPrefix pair.Original (str "https://") = true) ∧
    pair.Short.length = 8 ∧ (∀ c ∈ pair.Short, c ∈ letterBytes ∧ isAlnum c) ∧ pair.Short = k

/-! ## The embedding on concrete inputs -/

example : CanonicalMIMEHeaderKey (str "content-type") = str "Content-Type" := by decide
example : (generateShortID 8 (fun i => i)).1 = str "abcdefgh" := by decide
example : (webhook newResponseWriter ⟨str "GET", str "/", none⟩ ⟨newURLStore, fun i => i⟩).1.status
    = 400 := by decide

/-! ## The identifier generator -/

theorem letterBytes_alnum : ∀ c ∈ letterBytes, isAlnum c := by decide

theorem letterBytes_iff_alnum : ∀ c : UInt8, c ∈ letterBytes ↔ isAlnum c := by
  intro c
  rcases c with ⟨v⟩
  revert v
  decide

theorem letterAt_mem (x : Nat) : letterAt x ∈ letterBytes := List.get_mem _ _ _

/-- The fill loop overwrites exactly the positions `i, …, i + k - 1`, position
`i + j` with the letter of the `j`-th draw. -/
theorem generateShortID_loop_getElem? (k : Nat) :
    ∀ (i : Nat) (b : GoString) (g : Rand), i + k ≤ b.length → ∀ j,
      (generateShortID_loop k i b g).1[j]? =
        if i ≤ j ∧ j < i + k then some (letterAt (g (j - i))) else b[j]? := by
  induction k with
  | zero =>
    intro i b g _ j
    have h : ¬ (i ≤ j ∧ j < i + 0) := by omega
    rw [if_neg h]
    rfl
  | succ k ih =>
    intro i b g hb j
    have hlen : i + 1 + k ≤ (b.set i (letterAt (g 0))).length := by
      rw [List.length_set]; omega
    have step : generateShortID_loop (k + 1) i b g =
        generateShortID_loop k (i + 1) (b.set i (letterAt (g 0))) (fun n => g (n + 1)) := rfl
    rw [step, ih (i + 1) _ _ hlen j, List.getElem?_set]
    by_cases h1 : i + 1 ≤ j ∧ j < i + 1 + k
    · have h2 : i ≤ j ∧ j < i + (k + 1) := by omega
      have h3 : j - (i + 1) + 1 = j - i := by omega
      simp only [h1, h2, and_self, if_true, h3]
    · by_cases h4 : i = j
      · subst h4
        have h2 : i ≤ i ∧ i < i + (k + 1) := by omega
        have h5 : i < b.length := by omega
        simp [h1, h2, h5]
      · have h2 : ¬ (i ≤ j ∧ j < i + (k + 1)) := by omega
        simp [h1, h2, h4]

theorem generateShortID_loop_rng (k : Nat) :
    ∀ (i : Nat) (b : GoString) (g : Rand),
      (generateShortID_loop k i b g).2 = fun n => g (n + k) := by
  induction k with
  | zero => intro i b g; rfl
  | succ k ih =>
    intro i b g
    have step : generateShortID_loop (k + 1) i b g =
        generateShortID_loop k (i + 1) (b.set i (letterAt (g 0))) (fun n => g (n + 1)) := rfl
    rw [step, ih]
    funext n
    show g (n + k + 1) = g (n + (k + 1))
    rfl

/-- The generated string is the list of the letters of the first `n` draws. -/
theorem generateShortID_eq (n : Nat) (g : Rand) :
    (generateShortID n g).1 = (List.range n).map (fun j => letterAt (g j)) := by
  apply List.ext_getElem?
  intro j
  unfold generateShortID
  rw [generateShortID_loop_getElem? n 0 _ g (by simp), List.getElem?_map]
  by_cases h : j < n
  · simp [h, List.getElem?_range h]
  · have h1 : ¬ (0 ≤ j ∧ j < 0 + n) := by omega
    have h2 : (List.range n)[j]? = none := List.getElem?_eq_none (by simp; omega)
    simp [h1, h2, List.getElem?_replicate, h]

theorem generateShortID_rng (n : Nat) (g : Rand) :
    (generateShortID n g).2 = fun i => g (i + n) :=
  generateShortID_loop_rng n 0 _ g

theorem generateShortID_length (n : Nat) (g : Rand) : (generateShortID n g).1.length = n := by
  rw [generateShortID_eq]; simp

theorem generateShortID_mem (n : Nat) (g : Rand) :
    ∀ c ∈ (generateShortID n g).1, c ∈ letterBytes := by
  intro c hc
  rw [generateShortID_eq, List.mem_map] at hc
  obtain ⟨j, _, rfl⟩ := hc
  exact letterAt_mem _

theorem generatedID_length (g : Rand) : (generatedID g).length = 8 :=
  generateShortID_length 8 g

theorem generatedID_ne_nil (g : Rand) : generatedID g ≠ [] := by
  intro h
  have := generatedID_length g
  rw [h] at this
  exact absurd this (by decide)

/-! ## The store -/

theorem add_err (s : urlStore) (original : GoString) (g : Rand) :
    (s.add original g).err = none := rfl

theorem add_shortURL (s : urlStore) (original : GoString) (g : Rand) :
    (s.add original g).shortURL = str "http://localhost:8080/" ++ generatedID g := rfl

theorem add_rng (s : urlStore) (original : GoString) (g : Rand) :
    (s.add original g).rng = fun i => g (i + 8) :=
  generateShortID_rng 8 g

theorem add_lookup_self (s : urlStore) (original : GoString) (g : Rand) :
    (s.add original g).store.urls.lookup (generatedID g) =
      some { Original := original, Short := generatedID g } :=
  AList.lookup_insert _

theorem add_lookup_ne (s : urlStore) (original : GoString) (g : Rand) (k : GoString)
    (hk : k ≠ generatedID g) :
    (s.add original g).store.urls.lookup k = s.urls.lookup k :=
  AList.lookup_insert_ne hk

theorem add_mem (s : urlStore) (original : GoString) (g : Rand) (k : GoString) :
    k ∈ (s.add original g).store.urls ↔ k = generatedID g ∨ k ∈ s.urls :=
  AList.mem_insert _

theorem get_of_lookup_some (s : urlStore) (k : GoString) (pair : urlPair)
    (h : s.urls.lookup k = some pair) : s.get k = ((pair.Original, true), s) := by
  simp [urlStore.get, h]

theorem get_of_lookup_none (s : urlStore) (k : GoString)
    (h : s.urls.lookup k = none) : s.get k = (([], false), s) := by
  simp [urlStore.get, h]

theorem get_store (s : urlStore) (k : GoString) : (s.get k).2 = s := by
  unfold urlStore.get
  cases s.urls.lookup k <;> rfl

/-- Keys after a run of `add` calls: the old keys and the generated identifiers. -/
theorem addAll_mem (originals : List GoString) :
    ∀ (s : urlStore) (g : Rand) (k : GoString),
      k ∈ (addAll originals s g).2.1.urls ↔ k ∈ (addAll originals s g).1 ∨ k ∈ s.urls := by
  induction originals with
  | nil => intro s g k; simp [addAll]
  | cons o os ih =>
    intro s g k
    simp only [addAll, List.mem_cons]
    rw [ih, add_mem]
    tauto

/-- A key that none of the `add` calls of a run generates keeps its mapping. -/
theorem addAll_lookup_of_not_mem (originals : List GoString) :
    ∀ (s : urlStore) (g : Rand) (k : GoString), k ∉ (addAll originals s g).1 →
      (addAll originals s g).2.1.urls.lookup k = s.urls.lookup k := by
  induction originals with
  | nil => intro s g k _; rfl
  | cons o os ih =>
    intro s g k hk
    simp only [addAll, List.mem_cons, not_or] at hk ⊢
    rw [ih _ _ _ hk.2, add_lookup_ne _ _ _ _ hk.1]

/-! ## The handlers -/

theorem httpError_status (msg : GoString) (code : Nat) :
    (httpError newResponseWriter msg code).status = code := rfl

theorem httpError_body (msg : GoString) (code : Nat) :
    (httpError newResponseWriter msg code).body = msg ++ str "\n" := rfl

theorem httpError_header (msg : GoString) (code : Nat) :
    (httpError newResponseWriter msg code).header =
      ((∅ : Header).Set (str "Content-Type") (str "text/plain; charset=utf-8")).Set
        (str "X-Content-Type-Options") (str "nosniff") := rfl

theorem httpError_no_location (msg : GoString) (code : Nat) :
    (httpError newResponseWriter msg code).header.lookup (str "Location") = none ∧
      (httpError newResponseWriter msg code).header.Get (str "Location") = [] := by
  rw [httpError_header]
  decide

theorem handlePOST_valid (w : ResponseWriter) (sv : Server) (b : GoString)
    (h : HasPrefix b (str "http://") = true ∨ HasPrefix b (str "https://") = true) :
    handlePOST w ⟨MethodPost, str "/", some b⟩ sv =
      (((w.WriteHeader StatusCreated).HeaderSet (str "content-type") (str "text/plain")).Write
          (str "http://localhost:8080/" ++ generatedID sv.rng),
        ⟨(sv.store.add b sv.rng).store, (sv.store.add b sv.rng).rng⟩) := by
  have hc : (!HasPrefix b (str "http://") && !HasPrefix b (str "https://")) = false := by
    rcases h with h | h <;> simp [h]
  simp only [handlePOST, ne_eq, not_true_eq_false, or_self, if_false, hc, add_err]
  rfl

theorem handleGET_path (w : ResponseWriter) (sv : Server) (k : GoString) (body : Option GoString)
    (hk : k ≠ []) :
    handleGET w ⟨MethodGet, str "/" ++ k, body⟩ sv =
      if (sv.store.get k).1.2 then
        (((w.HeaderSet (str "Location") (sv.store.get k).1.1).WriteHeader StatusTemporaryRedirect),
          ⟨(sv.store.get k).2, sv.rng⟩)
      else
        (httpError w (str "Short URL not found") StatusBadRequest, ⟨(sv.store.get k).2, sv.rng⟩) := by
  have hl : ¬ len (str "/" ++ k) ≤ 1 := by
    have : 0 < k.length := List.length_pos.mpr hk
    show ¬ (str "/" ++ k).length ≤ 1
    rw [List.length_append]
    have : (str "/").length = 1 := rfl
    omega
  have hd : (str "/" ++ k).drop 1 = k := rfl
  simp only [handleGET, ne_eq, not_true_eq_false, hl, or_self, if_false, hd]
  cases (sv.store.get k).1.2 <;> rfl

theorem serve_post (sv : Server) (path : GoString) (body : Option GoString) :
    serve sv ⟨MethodPost, path, body⟩ = handlePOST newResponseWriter ⟨MethodPost, path, body⟩ sv := by
  simp [serve, webhook]

theorem serve_get (sv : Server) (path : GoString) (body : Option GoString) :
    serve sv ⟨MethodGet, path, body⟩ = handleGET newResponseWriter ⟨MethodGet, path, body⟩ sv := by
  have h : MethodGet ≠ MethodPost := by decide
  simp [serve, webhook, h]

/-! ## Properties of the service -/

/-- C1 (round trip): for every server state and every body `b` beginning with
`http://` or `https://`, a POST on `/` answers with the short URL
`http://localhost:8080/` followed by the generated identifier; a GET on `/` followed
by that identifier, issued on the resulting state, answers 307 with `Location`
exactly `b`; and `get` of the identifier on the store left by `add b` returns
`(b, true)`. -/
theorem C1_round_trip (sv : Server) (b : GoString)
    (h : HasPrefix b (str "http://") = true ∨ HasPrefix b (str "https://") = true) :
    (serve sv ⟨MethodPost, str "/", some b⟩).1.body
        = str "http://localhost:8080/" ++ generatedID sv.rng ∧
      (∀ body : Option GoString,
        (serve (serve sv ⟨MethodPost, str "/", some b⟩).2
            ⟨MethodGet, str "/" ++ generatedID sv.rng, body⟩).1.status = 307 ∧
        (serve (serve sv ⟨MethodPost, str "/", some b⟩).2
            ⟨MethodGet, str "/" ++ generatedID sv.rng, body⟩).1.header.Get (str "Location") = b ∧
        (serve (serve sv ⟨MethodPost, str "/", some b⟩).2
            ⟨MethodGet, str "/" ++ generatedID sv.rng, body⟩).1.header.lookup (str "Location")
          = some [b]) ∧
      ((sv.store.add b sv.rng).store.get (generatedID sv.rng)).1 = (b, true) := by
  have hget : (sv.store.add b sv.rng).store.get (generatedID sv.rng)
      = ((b, true), (sv.store.add b sv.rng).store) :=
    get_of_lookup_some _ _ _ (add_lookup_self _ _ _)
  rw [serve_post, handlePOST_valid _ _ _ h]
  refine ⟨rfl, ?_, by rw [hget]⟩
  intro body
  rw [serve_get, handleGET_path _ _ _ _ (generatedID_ne_nil _)]
  simp only [hget, if_true]
  refine ⟨rfl, ?_, ?_⟩
  · show Header.Get ((∅ : Header).Set (str "Location") b) (str "Location") = b
    unfold Header.Get Header.Set
    rw [AList.lookup_insert]
  · show AList.lookup (str "Location") ((∅ : Header).Set (str "Location") b) = some [b]
    exact AList.lookup_insert _

theorem C1_round_trip_witness :
    (HasPrefix (str "https://example.com/") (str "http://") = true ∨
      HasPrefix (str "https://example.com/") (str "https://") = true) ∧
    ((serve ⟨newURLStore, fun i => i⟩ ⟨MethodPost, str "/", some (str "https://example.com/")⟩).1.body
        = str "http://localhost:8080/" ++ generatedID (fun i => i) ∧
      (∀ body : Option GoString,
        (serve (serve ⟨newURLStore, fun i => i⟩
              ⟨MethodPost, str "/", some (str "https://example.com/")⟩).2
            ⟨MethodGet, str "/" ++ generatedID (fun i => i), body⟩).1.status = 307 ∧
        (serve (serve ⟨newURLStore, fun i => i⟩
              ⟨MethodPost, str "/", some (str "https://example.com/")⟩).2
            ⟨MethodGet, str "/" ++ generatedID (fun i => i), body⟩).1.header.Get (str "Location")
          = str "https://example.com/" ∧
        (serve (serve ⟨newURLStore, fun i => i⟩
              ⟨MethodPost, str "/", some (str "https://example.com/")⟩).2
            ⟨MethodGet, str "/" ++ generatedID (fun i => i), body⟩).1.header.lookup (str "Location")
          = some [str "https://example.com/"]) ∧
      ((newURLStore.add (str "https://example.com/") (fun i => i)).store.get
          (generatedID (fun i => i))).1 = (str "https://example.com/", true)) :=
  ⟨by decide, C1_round_trip ⟨newURLStore, fun i => i⟩ (str "https://example.com/") (by decide)⟩

/-- C2: in every store reached from the empty store by a finite sequence of `add`
calls, a string `k` different from all identifiers generated by those calls is
unknown: `get k` returns `("", false)`, and for non-empty `k` a GET on `/` followed
by `k` answers 400 with the message `Short URL not found` and without a `Location`
header. -/
theorem C2_unknown_identifier_not_found (originals : List GoString) (g : Rand) (k : GoString)
    (hk : k ∉ (addAll originals newURLStore g).1) :
    ((addAll originals newURLStore g).2.1.get k).1 = ([], false) ∧
      (k ≠ [] → ∀ (g1 : Rand) (body : Option GoString),
        (serve ⟨(addAll originals newURLStore g).2.1, g1⟩
            ⟨MethodGet, str "/" ++ k, body⟩).1.status = 400 ∧
        (serve ⟨(addAll originals newURLStore g).2.1, g1⟩
            ⟨MethodGet, str "/" ++ k, body⟩).1.body = str "Short URL not found\n" ∧
        (serve ⟨(addAll originals newURLStore g).2.1, g1⟩
            ⟨MethodGet, str "/" ++ k, body⟩).1.header.lookup (str "Location") = none ∧
        (serve ⟨(addAll originals newURLStore g).2.1, g1⟩
            ⟨MethodGet, str "/" ++ k, body⟩).1.header.Get (str "Location") = []) := by
  have hl : (addAll originals newURLStore g).2.1.urls.lookup k = none := by
    rw [addAll_lookup_of_not_mem originals _ _ _ hk]
    rfl
  have hget := get_of_lookup_none _ _ hl
  refine ⟨by rw [hget], ?_⟩
  intro hne g1 body
  rw [serve_get, handleGET_path _ _ _ _ hne]
  simp only [hget, Bool.false_eq_true, if_false]
  exact ⟨rfl, rfl, (httpError_no_location _ _).1, (httpError_no_location _ _).2⟩

theorem C2_unknown_identifier_not_found_witness :
    str "doesNotExist" ∉
        (addAll [str "https://example.com/", str "http://example.org/a"] newURLStore
          (fun i => 3 * i)).1 ∧
    (((addAll [str "https://example.com/", str "http://example.org/a"] newURLStore
          (fun i => 3 * i)).2.1.get (str "doesNotExist")).1 = ([], false) ∧
      (str "doesNotExist" ≠ [] → ∀ (g1 : Rand) (body : Option GoString),
        (serve ⟨(addAll [str "https://example.com/", str "http://example.org/a"] newURLStore
              (fun i => 3 * i)).2.1, g1⟩
            ⟨MethodGet, str "/" ++ str "doesNotExist", body⟩).1.status = 400 ∧
        (serve ⟨(addAll [str "https://example.com/", str "http://example.org/a"] newURLStore
              (fun i => 3 * i)).2.1, g1⟩
            ⟨MethodGet, str "/" ++ str "doesNotExist", body⟩).1.body
          = str "Short URL not found\n" ∧
        (serve ⟨(addAll [str "https://example.com/", str "http://example.org/a"] newURLStore
              (fun i => 3 * i)).2.1, g1⟩
            ⟨MethodGet, str "/" ++ str "doesNotExist", body⟩).1.header.lookup (str "Location")
          = none ∧
        (serve ⟨(addAll [str "https://example.com/", str "http://example.org/a"] newURLStore
              (fun i => 3 * i)).2.1, g1⟩
            ⟨MethodGet, str "/" ++ str "doesNotExist", body⟩).1.header.Get (str "Location")
          = [])) :=
  ⟨by decide,
    C2_unknown_identifier_not_found [str "https://example.com/", str "http://example.org/a"]
      (fun i => 3 * i) (str "doesNotExist") (by decide)⟩

/-- C3: for every length `n` and every random source, `generateShortID n` returns
exactly `n` characters, each a member of the 62-symbol alphabet `letterBytes`, which
consists of `a-z`, `A-Z`, `0-9`; in particular the identifier under which `add`
stores a pair has exactly 8 alphanumeric characters. -/
theorem C3_generateShortID_length_alphabet (n : Nat) (g : Rand) :
    (generateShortID n g).1.length = n ∧
      (∀ c ∈ (generateShortID n g).1, c ∈ letterBytes ∧ isAlnum c) ∧
      letterBytes.length = 62 ∧ letterBytes.Nodup ∧
      (∀ c : UInt8, c ∈ letterBytes ↔ isAlnum c) ∧
      (∀ (s : urlStore) (original : GoString), ∃ id : GoString,
        (s.add original g).shortURL = str "http://localhost:8080/" ++ id ∧
        (s.add original g).store.urls.lookup id = some { Original := original, Short := id } ∧
        id.length = 8 ∧ ∀ c ∈ id, isAlnum c) := by
  refine ⟨generateShortID_length n g, ?_, by decide, by decide, letterBytes_iff_alnum, ?_⟩
  · intro c hc
    have hm := generateShortID_mem n g c hc
    exact ⟨hm, letterBytes_alnum c hm⟩
  · intro s original
    refine ⟨generatedID g, add_shortURL s original g, add_lookup_self s original g,
      generatedID_length g, ?_⟩
    intro c hc
    exact letterBytes_alnum c (generateShortID_mem 8 g c hc)

/-- C4: `add` never returns an error: for every store, original and random source
it returns the short URL `http://localhost:8080/` followed by the 8-character
generated identifier together with a nil error, and the resulting store maps that
identifier to the pair of the original and the identifier.  Hence `handlePOST`
never takes its `Failed to create short URL` branch: no request makes it answer
with that message. -/
theorem C4_add_never_fails (s : urlStore) (original : GoString) (g : Rand) :
    (s.add original g).err = none ∧
      (s.add original g).shortURL = str "http://localhost:8080/" ++ generatedID g ∧
      (generatedID g).length = 8 ∧
      (s.add original g).store.urls.lookup (generatedID g)
        = some { Original := original, Short := generatedID g } ∧
      (∀ (r : Request) (sv : Server),
        (handlePOST newResponseWriter r sv).1.body ≠ str "Failed to create short URL\n" ∧
        (serve sv r).1.body ≠ str "Failed to create short URL\n") := by
  refine ⟨rfl, rfl, generatedID_length g, add_lookup_self s original g, ?_⟩
  have key : ∀ (r : Request) (sv : Server),
      (handlePOST newResponseWriter r sv).1.body ≠ str "Failed to create short URL\n" := by
    intro r sv
    unfold handlePOST
    split
    · rw [httpError_body]; decide
    · split
      · rw [httpError_body]; decide
      · dsimp only
        split
        · rw [httpError_body]; decide
        · simp only [add_err]
          intro hb
          have hb1 : (104 : UInt8) :: (str "ttp://localhost:8080/" ++ generatedID sv.rng)
              = 70 :: str "ailed to create short URL\n" := hb
          exact absurd (List.cons.inj hb1).1 (by decide)
  intro r sv
  refine ⟨key r sv, ?_⟩
  unfold serve webhook
  split
  · exact key r sv
  · split
    · unfold handleGET
      split
      · rw [httpError_body]; decide
      · dsimp only
        split
        · rw [httpError_body]; decide
        · intro hb
          have hb1 : ([] : GoString) = str "Failed to create short URL\n" := hb
          exact absurd hb1 (by decide)
    · rw [httpError_body]; decide

/-- C5: for every server state, a POST on `/` whose body was read and begins with
neither `http://` nor `https://` is answered with status 400 and the message
`Invalid URL format`, and the store (and the random source) is left as it was. -/
theorem C5_invalid_scheme_rejected (sv : Server) (b : GoString)
    (h1 : HasPrefix b (str "http://") = false) (h2 : HasPrefix b (str "https://") = false) :
    (serve sv ⟨MethodPost, str "/", some b⟩).1.status = 400 ∧
      (serve sv ⟨MethodPost, str "/", some b⟩).1.body = str "Invalid URL format\n" ∧
      (serve sv ⟨MethodPost, str "/", some b⟩).2.store = sv.store ∧
      (serve sv ⟨MethodPost, str "/", some b⟩).2.rng = sv.rng := by
  have hp : serve sv ⟨MethodPost, str "/", some b⟩ =
      (httpError newResponseWriter (str "Invalid URL format") StatusBadRequest, sv) := by
    rw [serve_post]
    simp [handlePOST, h1, h2]
  rw [hp]
  exact ⟨rfl, rfl, rfl, rfl⟩

theorem C5_invalid_scheme_rejected_witness :
    (HasPrefix (str "ftp://example.com/") (str "http://") = false ∧
      HasPrefix (str "ftp://example.com/") (str "https://") = false) ∧
    ((serve ⟨newURLStore, fun i => i⟩
          ⟨MethodPost, str "/", some (str "ftp://example.com/")⟩).1.status = 400 ∧
      (serve ⟨newURLStore, fun i => i⟩
          ⟨MethodPost, str "/", some (str "ftp://example.com/")⟩).1.body
        = str "Invalid URL format\n" ∧
      (serve ⟨newURLStore, fun i => i⟩
          ⟨MethodPost, str "/", some (str "ftp://example.com/")⟩).2.store = newURLStore ∧
      (serve ⟨newURLStore, fun i => i⟩
          ⟨MethodPost, str "/", some (str "ftp://example.com/")⟩).2.rng = fun i => i) :=
  ⟨by decide,
    C5_invalid_scheme_rejected ⟨newURLStore, fun i => i⟩ (str "ftp://example.com/")
      (by decide) (by decide)⟩

/-- The response to a valid POST, for every state: status 201 and the short URL
as body, while the committed header block is empty, because `content-type` is set
on the header map only after `WriteHeader`. -/
theorem handlePOST_created_response (sv : Server) (b : GoString)
    (h : HasPrefix b (str "http://") = true ∨ HasPrefix b (str "https://") = true) :
    (serve sv ⟨MethodPost, str "/", some b⟩).1.status = 201 ∧
      (serve sv ⟨MethodPost, str "/", some b⟩).1.body
        = str "http://localhost:8080/" ++ generatedID sv.rng ∧
      (serve sv ⟨MethodPost, str "/", some b⟩).1.header = ∅ ∧
      (serve sv ⟨MethodPost, str "/", some b⟩).1.handlerHeader
        = (∅ : Header).Set (str "content-type") (str "text/plain") := by
  rw [serve_post, handlePOST_valid _ _ _ h]
  exact ⟨rfl, rfl, rfl, rfl⟩

/-- C6, evaluated on `POST /` with body `https://example.com/` on the empty store:
the response has status 201 and body `http://localhost:8080/abcdefgh`, but the
header block that `handlePOST` commits is empty and holds no `Content-Type`; the
value `text/plain` reaches only the handler-side header map, after the headers were
committed by `WriteHeader`. -/
theorem C6_content_type_set_after_WriteHeader :
    (serve ⟨newURLStore, fun i => i⟩
        ⟨MethodPost, str "/", some (str "https://example.com/")⟩).1.status = 201 ∧
      (serve ⟨newURLStore, fun i => i⟩
        ⟨MethodPost, str "/", some (str "https://example.com/")⟩).1.body
        = str "http://localhost:8080/abcdefgh" ∧
      (serve ⟨newURLStore, fun i => i⟩
        ⟨MethodPost, str "/", some (str "https://example.com/")⟩).1.header.entries = [] ∧
      (serve ⟨newURLStore, fun i => i⟩
        ⟨MethodPost, str "/", some (str "https://example.com/")⟩).1.header.lookup
          (str "Content-Type") = none ∧
      (serve ⟨newURLStore, fun i => i⟩
        ⟨MethodPost, str "/", some (str "https://example.com/")⟩).1.header.Get
          (str "content-type") ≠ str "text/plain" ∧
      (serve ⟨newURLStore, fun i => i⟩
        ⟨MethodPost, str "/", some (str "https://example.com/")⟩).1.handlerHeader.Get
          (str "content-type") = str "text/plain" := by
  refine ⟨by decide, by decide, rfl, by decide, by decide, by decide⟩

/-- C7: for every server state and every GET whose path is `/` followed by a
non-empty `k`: if the store has an entry under `k`, the response is 307 with
`Location` equal to the entry's `Original`; if it has none, the response is 400 with
the message `Short URL not found`, which differs from the message
`Invalid request method or path` that a malformed GET receives with the same status
400. -/
theorem C7_get_redirect_or_not_found (sv : Server) (k : GoString) (body : Option GoString)
    (hk : k ≠ []) :
    (∀ pair : urlPair, sv.store.urls.lookup k = some pair →
        (serve sv ⟨MethodGet, str "/" ++ k, body⟩).1.status = 307 ∧
        (serve sv ⟨MethodGet, str "/" ++ k, body⟩).1.header.Get (str "Location")
          = pair.Original ∧
        (serve sv ⟨MethodGet, str "/" ++ k, body⟩).1.header.lookup (str "Location")
          = some [pair.Original]) ∧
      (sv.store.urls.lookup k = none →
        (serve sv ⟨MethodGet, str "/" ++ k, body⟩).1.status = 400 ∧
        (serve sv ⟨MethodGet, str "/" ++ k, body⟩).1.body = str "Short URL not found\n") ∧
      str "Short URL not found\n" ≠ str "Invalid request method or path\n" ∧
      (serve sv ⟨MethodGet, str "/", body⟩).1.status = 400 ∧
      (serve sv ⟨MethodGet, str "/", body⟩).1.body = str "Invalid request method or path\n" ∧
      (400 ≤ StatusBadRequest ∧ StatusBadRequest < 500) := by
  refine ⟨?_, ?_, by decide, ?_, ?_, by decide⟩
  · intro pair hp
    rw [serve_get, handleGET_path _ _ _ _ hk]
    simp only [get_of_lookup_some _ _ _ hp, if_true]
    refine ⟨rfl, ?_, ?_⟩
    · show Header.Get ((∅ : Header).Set (str "Location") pair.Original) (str "Location")
        = pair.Original
      unfold Header.Get Header.Set
      rw [AList.lookup_insert]
    · show AList.lookup (str "Location") ((∅ : Header).Set (str "Location") pair.Original)
        = some [pair.Original]
      exact AList.lookup_insert _
  · intro hn
    rw [serve_get, handleGET_path _ _ _ _ hk]
    simp only [get_of_lookup_none _ _ hn, Bool.false_eq_true, if_false]
    exact ⟨rfl, rfl⟩
  · rw [serve_get]; rfl
  · rw [serve_get]; rfl

theorem C7_get_redirect_or_not_found_witness :
    str "abcdefgh" ≠ [] ∧
    ((∀ pair : urlPair,
        (newURLStore.add (str "https://example.com/") (fun i => i)).store.urls.lookup
            (str "abcdefgh") = some pair →
        (serve ⟨(newURLStore.add (str "https://example.com/") (fun i => i)).store, fun i => i⟩
            ⟨MethodGet, str "/" ++ str "abcdefgh", none⟩).1.status = 307 ∧
        (serve ⟨(newURLStore.add (str "https://example.com/") (fun i => i)).store, fun i => i⟩
            ⟨MethodGet, str "/" ++ str "abcdefgh", none⟩).1.header.Get (str "Location")
          = pair.Original ∧
        (serve ⟨(newURLStore.add (str "https://example.com/") (fun i => i)).store, fun i => i⟩
            ⟨MethodGet, str "/" ++ str "abcdefgh", none⟩).1.header.lookup (str "Location")
          = some [pair.Original]) ∧
      ((newURLStore.add (str "https://example.com/") (fun i => i)).store.urls.lookup
            (str "abcdefgh") = none →
        (serve ⟨(newURLStore.add (str "https://example.com/") (fun i => i)).store, fun i => i⟩
            ⟨MethodGet, str "/" ++ str "abcdefgh", none⟩).1.status = 400 ∧
        (serve ⟨(newURLStore.add (str "https://example.com/") (fun i => i)).store, fun i => i⟩
            ⟨MethodGet, str "/" ++ str "abcdefgh", none⟩).1.body
          = str "Short URL not found\n") ∧
      str "Short URL not found\n" ≠ str "Invalid request method or path\n" ∧
      (serve ⟨(newURLStore.add (str "https://example.com/") (fun i => i)).store, fun i => i⟩
          ⟨MethodGet, str "/", none⟩).1.status = 400 ∧
      (serve ⟨(newURLStore.add (str "https://example.com/") (fun i => i)).store, fun i => i⟩
          ⟨MethodGet, str "/", none⟩).1.body = str "Invalid request method or path\n" ∧
      (400 ≤ StatusBadRequest ∧ StatusBadRequest < 500)) :=
  ⟨by decide,
    C7_get_redirect_or_not_found
      ⟨(newURLStore.add (str "https://example.com/") (fun i => i)).store, fun i => i⟩
      (str "abcdefgh") none (by decide)⟩

/-- C8: every request whose method is neither GET nor POST, whatever its path and
body, is answered by `webhook` with status 405 and the message `Method not allowed`,
and the store (and the random source) is left unchanged. -/
theorem C8_other_methods_not_allowed (sv : Server) (r : Request)
    (hg : r.Method ≠ MethodGet) (hp : r.Method ≠ MethodPost) :
    (serve sv r).1.status = 405 ∧
      (serve sv r).1.body = str "Method not allowed\n" ∧
      (serve sv r).2.store = sv.store ∧ (serve sv r).2.rng = sv.rng := by
  have h : serve sv r =
      (httpError newResponseWriter (str "Method not allowed") StatusMethodNotAllowed, sv) := by
    simp [serve, webhook, hg, hp]
  rw [h]
  exact ⟨rfl, rfl, rfl, rfl⟩

theorem C8_other_methods_not_allowed_witness :
    ((⟨str "DELETE", str "/", some (str "https://example.com/")⟩ : Request).Method ≠ MethodGet ∧
      (⟨str "DELETE", str "/", some (str "https://example.com/")⟩ : Request).Method
        ≠ MethodPost) ∧
    ((serve ⟨newURLStore, fun i => i⟩
          ⟨str "DELETE", str "/", some (str "https://example.com/")⟩).1.status = 405 ∧
      (serve ⟨newURLStore, fun i => i⟩
          ⟨str "DELETE", str "/", some (str "https://example.com/")⟩).1.body
        = str "Method not allowed\n" ∧
      (serve ⟨newURLStore, fun i => i⟩
          ⟨str "DELETE", str "/", some (str "https://example.com/")⟩).2.store = newURLStore ∧
      (serve ⟨newURLStore, fun i => i⟩
          ⟨str "DELETE", str "/", some (str "https://example.com/")⟩).2.rng = fun i => i) :=
  ⟨by decide,
    C8_other_methods_not_allowed ⟨newURLStore, fun i => i⟩
      ⟨str "DELETE", str "/", some (str "https://example.com/")⟩ (by decide) (by decide)⟩

/-- C9: `get` never mutates state: the store after `get k` is the store before it;
and `handleGET`, whatever the writer, the request and the outcome, leaves the store
(and the random source) unchanged, as does `webhook` on every GET request. -/
theorem C9_get_never_mutates (s : urlStore) (k : GoString) :
    (s.get k).2 = s ∧
      (∀ (w : ResponseWriter) (r : Request) (sv : Server),
        (handleGET w r sv).2.store = sv.store ∧ (handleGET w r sv).2.rng = sv.rng) ∧
      (∀ (sv : Server) (path : GoString) (body : Option GoString),
        (serve sv ⟨MethodGet, path, body⟩).2.store = sv.store) := by
  have key : ∀ (w : ResponseWriter) (r : Request) (sv : Server),
      (handleGET w r sv).2.store = sv.store ∧ (handleGET w r sv).2.rng = sv.rng := by
    intro w r sv
    unfold handleGET
    split
    · exact ⟨rfl, rfl⟩
    · dsimp only
      split
      · exact ⟨get_store _ _, rfl⟩
      · exact ⟨get_store _ _, rfl⟩
  refine ⟨get_store s k, key, ?_⟩
  intro sv path body
  rw [serve_get]
  exact (key _ _ _).1

/-- C10 does not hold for every random outcome: two `add` calls in a row on the empty store, with a
random source that repeats its draws, generate the identifier `abcdefgh` twice;
the entry inserted by the first call under `abcdefgh` is replaced by the second
call, and `get` of `abcdefgh` returns a different original before and after it. -/
theorem C10_collision_overwrites_entry :
    (addAll [str "http://a.example/", str "http://b.example/"] newURLStore (fun i => i % 8)).1
        = [str "abcdefgh", str "abcdefgh"] ∧
      (addAll [str "http://a.example/"] newURLStore (fun i => i % 8)).2.1.urls.lookup
          (str "abcdefgh")
        = some { Original := str "http://a.example/", Short := str "abcdefgh" } ∧
      (addAll [str "http://a.example/", str "http://b.example/"] newURLStore
          (fun i => i % 8)).2.1.urls.lookup (str "abcdefgh")
        = some { Original := str "http://b.example/", Short := str "abcdefgh" } ∧
      ((addAll [str "http://a.example/"] newURLStore (fun i => i % 8)).2.1.get
          (str "abcdefgh")).1 = (str "http://a.example/", true) ∧
      ((addAll [str "http://a.example/", str "http://b.example/"] newURLStore
          (fun i => i % 8)).2.1.get (str "abcdefgh")).1 = (str "http://b.example/", true) ∧
      ¬ (∀ (s : urlStore) (k : GoString) (pair : urlPair) (original : GoString) (g : Rand),
          s.urls.lookup k = some pair → (s.add original g).store.urls.lookup k = some pair) := by
  refine ⟨by decide, by decide, by decide, by decide, by decide, ?_⟩
  intro h
  have h1 := h (newURLStore.add (str "http://a.example/") (fun i => i)).store (str "abcdefgh")
    { Original := str "http://a.example/", Short := str "abcdefgh" } (str "http://b.example/")
    (fun i => i) (by decide)
  revert h1
  decide

/-- C10, for identifiers that do not collide: an entry is never removed, and it is
replaced only by a collision.
For every store, every key `k` present in it, every original and every random
source, after `add` the key `k` is still present; if the identifier generated by
the call differs from `k`, then `k` maps to the same pair as before; hence `get k`
returns the same result before and after any sequence of `add` calls none of which
generates `k`. -/
theorem C10_entries_persist_without_collision (s : urlStore) (k : GoString) (pair : urlPair)
    (original : GoString) (g : Rand) (h : s.urls.lookup k = some pair) :
    k ∈ (s.add original g).store.urls ∧
      (k ≠ generatedID g → (s.add original g).store.urls.lookup k = some pair) ∧
      (∀ originals : List GoString, k ∉ (addAll originals s g).1 →
        (addAll originals s g).2.1.urls.lookup k = some pair ∧
        ((addAll originals s g).2.1.get k).1 = (s.get k).1) := by
  have hmem : k ∈ s.urls := by
    rw [← AList.lookup_isSome, h]; rfl
  refine ⟨(add_mem s original g k).mpr (Or.inr hmem), ?_, ?_⟩
  · intro hne
    rw [add_lookup_ne s original g k hne, h]
  · intro originals hk
    have hl : (addAll originals s g).2.1.urls.lookup k = some pair := by
      rw [addAll_lookup_of_not_mem originals s g k hk, h]
    refine ⟨hl, ?_⟩
    rw [get_of_lookup_some _ _ _ hl, get_of_lookup_some _ _ _ h]

theorem C10_entries_persist_without_collision_witness :
    (newURLStore.add (str "http://a.example/") (fun i => i)).store.urls.lookup (str "abcdefgh")
        = some { Original := str "http://a.example/", Short := str "abcdefgh" } ∧
    (str "abcdefgh" ∈
        ((newURLStore.add (str "http://a.example/") (fun i => i)).store.add
          (str "http://b.example/") (fun i => i + 8)).store.urls ∧
      (str "abcdefgh" ≠ generatedID (fun i => i + 8) →
        ((newURLStore.add (str "http://a.example/") (fun i => i)).store.add
          (str "http://b.example/") (fun i => i + 8)).store.urls.lookup (str "abcdefgh")
          = some { Original := str "http://a.example/", Short := str "abcdefgh" }) ∧
      (∀ originals : List GoString,
        str "abcdefgh" ∉
          (addAll originals (newURLStore.add (str "http://a.example/") (fun i => i)).store
            (fun i => i + 8)).1 →
        (addAll originals (newURLStore.add (str "http://a.example/") (fun i => i)).store
            (fun i => i + 8)).2.1.urls.lookup (str "abcdefgh")
          = some { Original := str "http://a.example/", Short := str "abcdefgh" } ∧
        ((addAll originals (newURLStore.add (str "http://a.example/") (fun i => i)).store
            (fun i => i + 8)).2.1.get (str "abcdefgh")).1
          = ((newURLStore.add (str "http://a.example/") (fun i => i)).store.get
              (str "abcdefgh")).1)) :=
  ⟨by decide,
    C10_entries_persist_without_collision
      (newURLStore.add (str "http://a.example/") (fun i => i)).store (str "abcdefgh")
      { Original := str "http://a.example/", Short := str "abcdefgh" }
      (str "http://b.example/") (fun i => i + 8) (by decide)⟩

/-! ## Reachable stores -/

theorem HasPrefix_ne_nil (b p : GoString) (hp : p ≠ []) (h : HasPrefix b p = true) : b ≠ [] := by
  intro hb
  subst hb
  unfold HasPrefix len at h
  have h1 : p.length ≤ 0 := of_decide_eq_true (Bool.and_eq_true _ _ ▸ h).1
  exact hp (List.length_eq_zero.mp (Nat.le_zero.mp h1))

theorem handleGET_state (w : ResponseWriter) (r : Request) (sv : Server) :
    (handleGET w r sv).2.store = sv.store ∧ (handleGET w r sv).2.rng = sv.rng := by
  unfold handleGET
  split
  · exact ⟨rfl, rfl⟩
  · dsimp only
    split
    · exact ⟨get_store _ _, rfl⟩
    · exact ⟨get_store _ _, rfl⟩

/-- A request either leaves the store as it is, or it is a POST with an accepted
body `b` and the store becomes the one left by `add b`. -/
theorem serve_store_cases (sv : Server) (r : Request) :
    (serve sv r).2.store = sv.store ∨
      ∃ b : GoString,
        (HasPrefix b (str "http://") = true ∨ HasPrefix b (str "https://") = true) ∧
        (serve sv r).2 = ⟨(sv.store.add b sv.rng).store, (sv.store.add b sv.rng).rng⟩ := by
  unfold serve webhook
  split
  · unfold handlePOST
    split
    · exact Or.inl rfl
    · split
      · exact Or.inl rfl
      · rename_i body _
        dsimp only
        split
        · exact Or.inl rfl
        · rename_i hc
          refine Or.inr ⟨body, ?_, ?_⟩
          · cases h1 : HasPrefix body (str "http://")
            · cases h2 : HasPrefix body (str "https://")
              · simp [h1, h2] at hc
              · exact Or.inr rfl
            · exact Or.inl rfl
          · simp only [add_err]
  · split
    · exact Or.inl (handleGET_state _ _ _).1
    · exact Or.inl rfl

theorem storeInv_new : storeInv newURLStore := by
  intro k pair h
  have : (newURLStore.urls.lookup k) = none := AList.lookup_empty k
  rw [this] at h
  cases h

theorem storeInv_add (s : urlStore) (b : GoString) (g : Rand) (hs : storeInv s)
    (hb : HasPrefix b (str "http://") = true ∨ HasPrefix b (str "https://") = true) :
    storeInv (s.add b g).store := by
  intro k pair h
  by_cases hk : k = generatedID g
  · subst hk
    rw [add_lookup_self] at h
    cases h
    refine ⟨?_, hb, generatedID_length g, ?_, rfl⟩
    · rcases hb with hb | hb
      · exact HasPrefix_ne_nil _ _ (by decide) hb
      · exact HasPrefix_ne_nil _ _ (by decide) hb
    · intro c hc
      have hm := generateShortID_mem 8 g c hc
      exact ⟨hm, letterBytes_alnum c hm⟩
  · rw [add_lookup_ne _ _ _ _ hk] at h
    exact hs k pair h

theorem storeInv_serve (sv : Server) (r : Request) (hs : storeInv sv.store) :
    storeInv (serve sv r).2.store := by
  rcases serve_store_cases sv r with h | ⟨b, hb, h⟩
  · rw [h]; exact hs
  · rw [h]; exact storeInv_add _ _ _ hs hb

theorem storeInv_run (reqs : List Request) :
    ∀ sv : Server, storeInv sv.store → storeInv (run reqs sv).store := by
  induction reqs with
  | nil => intro sv hs; exact hs
  | cons r rs ih => intro sv hs; exact ih _ (storeInv_serve sv r hs)

/-- C11 (data-model invariant): in every store reached from the empty store by a
finite sequence of requests handled by `webhook`, with any methods, paths, bodies
and random draws, every entry `k -> pair` has a non-empty `Original` beginning with
`http://` or `https://`, a `Short` of exactly 8 characters of the 62-letter
alphanumeric alphabet, and `Short` equal to its key `k`. -/
theorem C11_reachable_entries_well_formed (reqs : List Request) (g : Rand) (k : GoString)
    (pair : urlPair) (h : (run reqs ⟨newURLStore, g⟩).store.urls.lookup k = some pair) :
    pair.Original ≠ [] ∧
      (HasPrefix pair.Original (str "http://") = true ∨
        HasPrefix pair.Original (str "https://") = true) ∧
      pair.Short.length = 8 ∧ (∀ c ∈ pair.Short, c ∈ letterBytes ∧ isAlnum c) ∧
      pair.Short = k :=
  storeInv_run reqs ⟨newURLStore, g⟩ storeInv_new k pair h

theorem C11_reachable_entries_well_formed_witness :
    (run [⟨MethodPost, str "/", some (str "https://example.com/")⟩,
          ⟨MethodGet, str "/abcdefgh", none⟩,
          ⟨str "DELETE", str "/", none⟩,
          ⟨MethodPost, str "/", some (str "ftp://example.com/")⟩,
          ⟨MethodPost, str "/", some (str "http://example.org/a")⟩]
        ⟨newURLStore, fun i => i⟩).store.urls.lookup (str "ijklmnop")
      = some { Original := str "http://example.org/a", Short := str "ijklmnop" } ∧
    (str "http://example.org/a" ≠ [] ∧
      (HasPrefix (str "http://example.org/a") (str "http://") = true ∨
        HasPrefix (str "http://example.org/a") (str "https://") = true) ∧
      (str "ijklmnop").length = 8 ∧
      (∀ c ∈ str "ijklmnop", c ∈ letterBytes ∧ isAlnum c) ∧
      str "ijklmnop" = str "ijklmnop") :=
  ⟨by decide,
    C11_reachable_entries_well_formed
      [⟨MethodPost, str "/", some (str "https://example.com/")⟩,
        ⟨MethodGet, str "/abcdefgh", none⟩,
        ⟨str "DELETE", str "/", none⟩,
        ⟨MethodPost, str "/", some (str "ftp://example.com/")⟩,
        ⟨MethodPost, str "/", some (str "http://example.org/a")⟩]
      (fun i => i) (str "ijklmnop")
      { Original := str "http://example.org/a", Short := str "ijklmnop" } (by decide)⟩

/-! ## Counting entries -/

theorem count_eq_keys_length (s : urlStore) : s.count = s.urls.keys.length := by
  simp [urlStore.count, AList.keys, List.keys]

theorem keys_insert_length_of_not_mem {α : Type} {β : α → Type} [DecidableEq α] (a : α)
    (b : β a) (m : AList β) (h : a ∉ m) : (m.insert a b).keys.length = m.keys.length + 1 := by
  rw [AList.keys_insert, List.erase_of_not_mem (fun hm => h (AList.mem_keys.mpr hm))]
  rfl

theorem keys_insert_length_of_mem {α : Type} {β : α → Type} [DecidableEq α] (a : α)
    (b : β a) (m : AList β) (h : a ∈ m) : (m.insert a b).keys.length = m.keys.length := by
  have hm : a ∈ m.keys := AList.mem_keys.mp h
  have hpos : 0 < m.keys.length := List.length_pos_of_mem hm
  rw [AList.keys_insert, List.length_cons, List.length_erase_of_mem hm]
  omega

theorem add_count_of_not_mem (s : urlStore) (original : GoString) (g : Rand)
    (h : generatedID g ∉ s.urls) : (s.add original g).store.count = s.count + 1 := by
  rw [count_eq_keys_length, count_eq_keys_length]
  exact keys_insert_length_of_not_mem _ _ _ h

theorem add_count_of_mem (s : urlStore) (original : GoString) (g : Rand)
    (h : generatedID g ∈ s.urls) : (s.add original g).store.count = s.count := by
  rw [count_eq_keys_length, count_eq_keys_length]
  exact keys_insert_length_of_mem _ _ _ h

theorem mem_of_lookup_some (s : urlStore) (k : GoString) (pair : urlPair)
    (h : s.urls.lookup k = some pair) : k ∈ s.urls := by
  rw [← AList.lookup_isSome, h]; rfl

/-- C12 (unchecked collision): if the store already has an entry under `id` and
`add o2` generates that same `id`, then `add` returns no error, the number of
entries does not change, and afterwards `get id` returns `(o2, true)`, whereas
before it returned the old original; so an old original different from `o2` is no
longer returned for `id`. -/
theorem C12_collision_overwrites (s : urlStore) (id o2 : GoString) (pair : urlPair) (g : Rand)
    (h : s.urls.lookup id = some pair) (hg : generatedID g = id) :
    (s.add o2 g).err = none ∧
      (s.add o2 g).shortURL = str "http://localhost:8080/" ++ id ∧
      (s.add o2 g).store.count = s.count ∧
      (s.get id).1 = (pair.Original, true) ∧
      ((s.add o2 g).store.get id).1 = (o2, true) ∧
      (s.add o2 g).store.urls.lookup id = some { Original := o2, Short := id } ∧
      (pair.Original ≠ o2 → ((s.add o2 g).store.get id).1.1 ≠ pair.Original) := by
  subst hg
  have hl := add_lookup_self s o2 g
  have hget := get_of_lookup_some _ _ _ hl
  refine ⟨rfl, rfl, add_count_of_mem s o2 g (mem_of_lookup_some s _ pair h), ?_, ?_, hl, ?_⟩
  · rw [get_of_lookup_some _ _ _ h]
  · rw [hget]
  · intro hne
    rw [hget]
    exact fun h2 => hne h2.symm

theorem C12_collision_overwrites_witness :
    ((newURLStore.add (str "http://a.example/") (fun i => i)).store.urls.lookup (str "abcdefgh")
        = some { Original := str "http://a.example/", Short := str "abcdefgh" } ∧
      generatedID (fun i => i) = str "abcdefgh") ∧
    (((newURLStore.add (str "http://a.example/") (fun i => i)).store.add
          (str "http://b.example/") (fun i => i)).err = none ∧
      ((newURLStore.add (str "http://a.example/") (fun i => i)).store.add
          (str "http://b.example/") (fun i => i)).shortURL
        = str "http://localhost:8080/" ++ str "abcdefgh" ∧
      ((newURLStore.add (str "http://a.example/") (fun i => i)).store.add
          (str "http://b.example/") (fun i => i)).store.count
        = (newURLStore.add (str "http://a.example/") (fun i => i)).store.count ∧
      ((newURLStore.add (str "http://a.example/") (fun i => i)).store.get (str "abcdefgh")).1
        = (str "http://a.example/", true) ∧
      (((newURLStore.add (str "http://a.example/") (fun i => i)).store.add
          (str "http://b.example/") (fun i => i)).store.get (str "abcdefgh")).1
        = (str "http://b.example/", true) ∧
      ((newURLStore.add (str "http://a.example/") (fun i => i)).store.add
          (str "http://b.example/") (fun i => i)).store.urls.lookup (str "abcdefgh")
        = some { Original := str "http://b.example/", Short := str "abcdefgh" } ∧
      (str "http://a.example/" ≠ str "http://b.example/" →
        (((newURLStore.add (str "http://a.example/") (fun i => i)).store.add
          (str "http://b.example/") (fun i => i)).store.get (str "abcdefgh")).1.1
          ≠ str "http://a.example/")) :=
  ⟨⟨by decide, by decide⟩,
    C12_collision_overwrites (newURLStore.add (str "http://a.example/") (fun i => i)).store
      (str "abcdefgh") (str "http://b.example/")
      { Original := str "http://a.example/", Short := str "abcdefgh" } (fun i => i)
      (by decide) (by decide)⟩

/-- C14 (malformed paths): for every server state, a POST whose path is not exactly
`/` is answered with 400 `Invalid request method or path` whatever its body, and a GET
whose path has length at most 1 is answered with the same 400 response; in both
cases the response does not depend on the store, and the store (and the random
source) is left as it was. -/
theorem C14_malformed_path_rejected (sv : Server) (postPath getPath : GoString)
    (postBody getBody : Option GoString) (hp : postPath ≠ str "/") (hg : len getPath ≤ 1) :
    (serve sv ⟨MethodPost, postPath, postBody⟩).1.status = 400 ∧
      (serve sv ⟨MethodPost, postPath, postBody⟩).1.body
        = str "Invalid request method or path\n" ∧
      serve sv ⟨MethodPost, postPath, postBody⟩
        = (httpError newResponseWriter (str "Invalid request method or path") StatusBadRequest,
            sv) ∧
      (serve sv ⟨MethodPost, postPath, postBody⟩).2.store = sv.store ∧
      (serve sv ⟨MethodGet, getPath, getBody⟩).1.status = 400 ∧
      (serve sv ⟨MethodGet, getPath, getBody⟩).1.body
        = str "Invalid request method or path\n" ∧
      serve sv ⟨MethodGet, getPath, getBody⟩
        = (httpError newResponseWriter (str "Invalid request method or path") StatusBadRequest,
            sv) ∧
      (serve sv ⟨MethodGet, getPath, getBody⟩).2.store = sv.store := by
  have h1 : serve sv ⟨MethodPost, postPath, postBody⟩
      = (httpError newResponseWriter (str "Invalid request method or path") StatusBadRequest,
          sv) := by
    rw [serve_post]
    simp [handlePOST, hp]
  have h2 : serve sv ⟨MethodGet, getPath, getBody⟩
      = (httpError newResponseWriter (str "Invalid request method or path") StatusBadRequest,
          sv) := by
    rw [serve_get]
    simp [handleGET, hg]
  rw [h1, h2]
  exact ⟨rfl, rfl, rfl, rfl, rfl, rfl, rfl, rfl⟩

theorem C14_malformed_path_rejected_witness :
    (str "/abc" ≠ str "/" ∧ len (str "/") ≤ 1) ∧
    ((serve ⟨newURLStore, fun i => i⟩
          ⟨MethodPost, str "/abc", some (str "http://example.com/")⟩).1.status = 400 ∧
      (serve ⟨newURLStore, fun i => i⟩
          ⟨MethodPost, str "/abc", some (str "http://example.com/")⟩).1.body
        = str "Invalid request method or path\n" ∧
      serve ⟨newURLStore, fun i => i⟩ ⟨MethodPost, str "/abc", some (str "http://example.com/")⟩
        = (httpError newResponseWriter (str "Invalid request method or path") StatusBadRequest,
            ⟨newURLStore, fun i => i⟩) ∧
      (serve ⟨newURLStore, fun i => i⟩
          ⟨MethodPost, str "/abc", some (str "http://example.com/")⟩).2.store = newURLStore ∧
      (serve ⟨newURLStore, fun i => i⟩ ⟨MethodGet, str "/", none⟩).1.status = 400 ∧
      (serve ⟨newURLStore, fun i => i⟩ ⟨MethodGet, str "/", none⟩).1.body
        = str "Invalid request method or path\n" ∧
      serve ⟨newURLStore, fun i => i⟩ ⟨MethodGet, str "/", none⟩
        = (httpError newResponseWriter (str "Invalid request method or path") StatusBadRequest,
            ⟨newURLStore, fun i => i⟩) ∧
      (serve ⟨newURLStore, fun i => i⟩ ⟨MethodGet, str "/", none⟩).2.store = newURLStore) :=
  ⟨⟨by decide, by decide⟩,
    C14_malformed_path_rejected ⟨newURLStore, fun i => i⟩ (str "/abc") (str "/")
      (some (str "http://example.com/")) none (by decide) (by decide)⟩

example : (newURLStore.add (str "http://a.example/") (fun i => i)).store.count = 1 := by decide
example : ((newURLStore.add (str "http://a.example/") (fun i => i)).store.add
    (str "http://b.example/") (fun i => i)).store.count = 1 := by decide
example : ((newURLStore.add (str "http://a.example/") (fun i => i)).store.add
    (str "http://b.example/") (fun i => i + 8)).store.count = 2 := by decide

/-- C15 (frame of `add`): `add` changes the mapping at the generated identifier
only.  For every key `k` different from it, `k` is present after the call iff it was
present before, and maps to the same pair; the identifier itself maps to the new
pair; the number of entries grows by exactly one when the identifier was absent and
stays the same when it was present. -/
theorem C15_add_frame (s : urlStore) (original : GoString) (g : Rand) :
    (∀ k : GoString, k ≠ generatedID g →
        ((k ∈ (s.add original g).store.urls ↔ k ∈ s.urls) ∧
          (s.add original g).store.urls.lookup k = s.urls.lookup k)) ∧
      (s.add original g).store.urls.lookup (generatedID g)
        = some { Original := original, Short := generatedID g } ∧
      (generatedID g ∉ s.urls → (s.add original g).store.count = s.count + 1) ∧
      (generatedID g ∈ s.urls → (s.add original g).store.count = s.count) ∧
      (s.add original g).store.count
        = if generatedID g ∈ s.urls then s.count else s.count + 1 := by
  refine ⟨?_, add_lookup_self s original g, add_count_of_not_mem s original g,
    add_count_of_mem s original g, ?_⟩
  · intro k hk
    refine ⟨?_, add_lookup_ne s original g k hk⟩
    rw [add_mem]
    exact ⟨fun h => h.resolve_left hk, Or.inr⟩
  · by_cases h : generatedID g ∈ s.urls
    · rw [if_pos h]; exact add_count_of_mem s original g h
    · rw [if_neg h]; exact add_count_of_not_mem s original g h

/-! ## Runs of `add` with distinct identifiers -/

theorem addAll_ids_length (originals : List GoString) :
    ∀ (s : urlStore) (g : Rand), (addAll originals s g).1.length = originals.length := by
  induction originals with
  | nil => intro s g; rfl
  | cons o os ih =>
    intro s g
    simp only [addAll, List.length_cons]
    rw [ih]

/-- With pairwise distinct identifiers, the `i`-th original stays stored under the
`i`-th identifier until the end of the run. -/
theorem addAll_lookup_of_nodup (originals : List GoString) :
    ∀ (s : urlStore) (g : Rand), (addAll originals s g).1.Nodup →
      ∀ (i : Nat) (o : GoString), originals[i]? = some o →
        ∃ id : GoString, (addAll originals s g).1[i]? = some id ∧
          (addAll originals s g).2.1.urls.lookup id = some { Original := o, Short := id } := by
  induction originals with
  | nil => intro s g _ i o h; simp at h
  | cons o0 os ih =>
    intro s g hnd i o h
    simp only [addAll] at hnd ⊢
    rw [List.nodup_cons] at hnd
    cases i with
    | zero =>
      rw [List.getElem?_cons_zero] at h
      cases h
      refine ⟨generatedID g, List.getElem?_cons_zero, ?_⟩
      rw [addAll_lookup_of_not_mem os _ _ _ hnd.1]
      exact add_lookup_self s o0 g
    | succ j =>
      rw [List.getElem?_cons_succ] at h
      obtain ⟨id, h1, h2⟩ := ih (s.add o0 g).store (s.add o0 g).rng hnd.2 j o h
      exact ⟨id, by rw [List.getElem?_cons_succ]; exact h1, h2⟩

/-- With pairwise distinct identifiers, none of them a key of the starting store,
a run of `add` calls adds one entry per call. -/
theorem addAll_count_of_nodup (originals : List GoString) :
    ∀ (s : urlStore) (g : Rand), (addAll originals s g).1.Nodup →
      (∀ id ∈ (addAll originals s g).1, id ∉ s.urls) →
      (addAll originals s g).2.1.count = s.count + originals.length := by
  induction originals with
  | nil => intro s g _ _; rfl
  | cons o0 os ih =>
    intro s g hnd hfresh
    simp only [addAll] at hnd hfresh ⊢
    rw [List.nodup_cons] at hnd
    have h0 : generatedID g ∉ s.urls := hfresh _ (List.mem_cons_self _ _)
    have hrest : ∀ id ∈ (addAll os (s.add o0 g).store (s.add o0 g).rng).1,
        id ∉ (s.add o0 g).store.urls := by
      intro id hid hmem
      rcases (add_mem s o0 g id).mp hmem with h | h
      · exact hnd.1 (h ▸ hid)
      · exact hfresh id (List.mem_cons_of_mem _ hid) h
    rw [ih _ _ hnd.2 hrest, add_count_of_not_mem s o0 g h0, List.length_cons]
    omega

/-- C16 (sequential no-lost-updates): when the originals of a list are added one
after another to the empty store and the generated identifiers are pairwise
distinct, the final store has exactly as many entries as the list has originals,
and for each position `i`, `get` of the `i`-th identifier returns the `i`-th
original with `true`. -/
theorem C16_sequential_no_lost_updates (originals : List GoString) (g : Rand)
    (h : (addAll originals newURLStore g).1.Nodup) :
    (addAll originals newURLStore g).1.length = originals.length ∧
      (addAll originals newURLStore g).2.1.count = originals.length ∧
      (∀ (i : Nat) (o : GoString), originals[i]? = some o →
        ∃ id : GoString, (addAll originals newURLStore g).1[i]? = some id ∧
          ((addAll originals newURLStore g).2.1.get id).1 = (o, true)) := by
  refine ⟨addAll_ids_length originals _ _, ?_, ?_⟩
  · have hc := addAll_count_of_nodup originals newURLStore g h
      (fun id _ hm => (AList.not_mem_empty id) hm)
    rw [hc]
    show 0 + originals.length = originals.length
    omega
  · intro i o hi
    obtain ⟨id, h1, h2⟩ := addAll_lookup_of_nodup originals newURLStore g h i o hi
    exact ⟨id, h1, by rw [get_of_lookup_some _ _ _ h2]⟩

theorem C16_sequential_no_lost_updates_witness :
    (addAll [str "http://a.example/", str "https://b.example/", str "http://c.example/"]
        newURLStore (fun i => i)).1.Nodup ∧
    ((addAll [str "http://a.example/", str "https://b.example/", str "http://c.example/"]
          newURLStore (fun i => i)).1.length
        = [str "http://a.example/", str "https://b.example/", str "http://c.example/"].length ∧
      (addAll [str "http://a.example/", str "https://b.example/", str "http://c.example/"]
          newURLStore (fun i => i)).2.1.count
        = [str "http://a.example/", str "https://b.example/", str "http://c.example/"].length ∧
      (∀ (i : Nat) (o : GoString),
        [str "http://a.example/", str "https://b.example/", str "http://c.example/"][i]?
          = some o →
        ∃ id : GoString,
          (addAll [str "http://a.example/", str "https://b.example/", str "http://c.example/"]
            newURLStore (fun i => i)).1[i]? = some id ∧
          ((addAll [str "http://a.example/", str "https://b.example/", str "http://c.example/"]
            newURLStore (fun i => i)).2.1.get id).1 = (o, true))) :=
  ⟨by decide,
    C16_sequential_no_lost_updates
      [str "http://a.example/", str "https://b.example/", str "http://c.example/"]
      (fun i => i) (by decide)⟩

end Shortener
